import Mathlib

/-
Verification development for the Automated Job Aggregator and Enrichment Bot
(src/main.py). Job postings are Python dicts mapping string keys to values;
the values that occur in this program are strings and None, so a value is
modelled by `PyVal` and a dict by an association list with Python dict
update semantics (assigning to an existing key replaces its value in place,
assigning to a fresh key appends it). Boundary calls that cannot be embedded
(selenium page scraping, the wall clock, the filesystem and process exit)
are modelled by their outcomes: each scraper call by an `Except` value
(raised exception or returned posting list), `datetime.utcnow().isoformat()`
by an opaque string parameter `now`, and `main` by the trace of boundary
actions it performs.
-/

namespace JobAggregator

/-- Values stored in a job-posting dict: Python `None` or a string. -/
inductive PyVal where
  | none
  | str (s : String)
deriving DecidableEq

/-- A Python dict with string keys, as an association list (unique keys are
maintained by `dictSet`). -/
abbrev Dict := List (String × PyVal)

/-- Lookup, as in `d[k]` / `d.get(k)`: the value at the first matching key. -/
def dictGet (d : Dict) (k : String) : Option PyVal :=
  (d.find? (fun p => p.1 == k)).map (fun p => p.2)

/-- Assignment `d[k] = v`: replace the value at an existing key in place,
otherwise append the new pair at the end, as a Python dict does. -/
def dictSet (d : Dict) (k : String) (v : PyVal) : Dict :=
  if d.any (fun p => p.1 == k) then
    d.map (fun p => if p.1 == k then (k, v) else p)
  else
    d ++ [(k, v)]

/-- Python `d.update(other)`: assign every pair of `other` into `d`. -/
def dictUpdate (d other : Dict) : Dict :=
  other.foldl (fun acc p => dictSet acc p.1 p.2) d

/-- Python `d.get(k, dflt)`. -/
def pyGetD (d : Dict) (k : String) (dflt : PyVal) : PyVal :=
  (dictGet d k).getD dflt

/-- From src/main.py lines 228-236: the company-background enrichment stub.
It logs and returns a record with every field `None`, for any company name. -/
def enrich_company_background (company_name : PyVal) : Dict :=
  [("industry", PyVal.none),
   ("company_size", PyVal.none),
   ("year_founded", PyVal.none),
   ("notable_info", PyVal.none)]

/-- From src/main.py lines 238-244: the salary benchmarking stub. It logs and
returns a record with every field `None`, for any title and location. -/
def benchmark_salary (job_title location : PyVal) : Dict :=
  [("average_salary", PyVal.none),
   ("comparison", PyVal.none)]

/-- From src/main.py lines 253-259: a job is a duplicate when some existing
job has the same title, company and link, by exact string equality. The
Python loop with an early `return True` is `List.any`. -/
def is_duplicate (job : Dict) (existing_jobs : List Dict) : Bool :=
  existing_jobs.any (fun existing =>
    dictGet job "job_title" == dictGet existing "job_title" &&
    dictGet job "company_name" == dictGet existing "company_name" &&
    dictGet job "source_link" == dictGet existing "source_link")

/-- The deduplication stage: the `if is_duplicate(job, existing_jobs):
continue` filter of `enrich_and_store_jobs` (src/main.py line 279), as a
function of the input sequence and the existing-jobs index. -/
def deduplicate (jobs : List Dict) (existing_jobs : List Dict) : List Dict :=
  jobs.filter (fun job => !is_duplicate job existing_jobs)

/-- The body of the `enrich_and_store_jobs` loop for one posting
(src/main.py lines 282-288): merge the company-background record, then the
salary record, then set the `scraped_at` key to the timestamp string. -/
def enrichJob (job : Dict) (now : String) : Dict :=
  let company_info := enrich_company_background (pyGetD job "company_name" (PyVal.str ""))
  let job1 := dictUpdate job company_info
  let salary_info := benchmark_salary (pyGetD job1 "job_title" (PyVal.str ""))
      (pyGetD job1 "location" (PyVal.str ""))
  let job2 := dictUpdate job1 salary_info
  dictSet job2 "scraped_at" (PyVal.str now)

/-- The `for job in jobs` loop of `enrich_and_store_jobs` (src/main.py lines
278-289), accumulating `enriched_jobs`. -/
def enrichLoop (existing_jobs : List Dict) (now : String) :
    List Dict → List Dict → List Dict
  | enriched_jobs, [] => enriched_jobs
  | enriched_jobs, job :: rest =>
    if is_duplicate job existing_jobs then
      enrichLoop existing_jobs now enriched_jobs rest
    else
      enrichLoop existing_jobs now (enriched_jobs ++ [enrichJob job now]) rest

/-- From src/main.py lines 274-291: `enrich_and_store_jobs`. The existing-jobs
index is the placeholder empty list (line 277). The Python function returns
`None`; the model returns the `enriched_jobs` batch handed to
`append_to_google_sheet` (the sink). -/
def enrich_and_store_jobs (jobs : List Dict) (now : String) : List Dict :=
  let existing_jobs : List Dict := []
  enrichLoop existing_jobs now [] jobs

/-- Outcome of one scraper call: the posting list it returned, or the
exception it raised. The three scrapers themselves are selenium boundary
code and are modelled by their outcomes. -/
abbrev ScraperResult := Except String (List Dict)

/-- From src/main.py lines 263-272: `aggregate_jobs` folds over the
registered scrapers; a successful call extends `all_jobs`, a raised
exception is caught, logged and contributes nothing. -/
def aggregate_jobs (results : List ScraperResult) : List Dict :=
  results.foldl (fun all_jobs r =>
    match r with
    | Except.ok jobs => all_jobs ++ jobs
    | Except.error _ => all_jobs) []

/-- The loop of `enrich_and_store_jobs` with the two enrichment boundary
calls abstracted as fallible functions, reflecting that in Python either
call may raise and that the loop body contains no handler: a raised
exception propagates out of the whole function at once. -/
def enrichLoopWith (companyLookup : PyVal → Except String Dict)
    (salaryLookup : PyVal → PyVal → Except String Dict)
    (existing_jobs : List Dict) (now : String) :
    List Dict → List Dict → Except String (List Dict)
  | enriched_jobs, [] => Except.ok enriched_jobs
  | enriched_jobs, job :: rest =>
    if is_duplicate job existing_jobs then
      enrichLoopWith companyLookup salaryLookup existing_jobs now enriched_jobs rest
    else
      match companyLookup (pyGetD job "company_name" (PyVal.str "")) with
      | Except.error e => Except.error e
      | Except.ok company_info =>
        let job1 := dictUpdate job company_info
        match salaryLookup (pyGetD job1 "job_title" (PyVal.str ""))
            (pyGetD job1 "location" (PyVal.str "")) with
        | Except.error e => Except.error e
        | Except.ok salary_info =>
          let job2 := dictSet (dictUpdate job1 salary_info) "scraped_at" (PyVal.str now)
          enrichLoopWith companyLookup salaryLookup existing_jobs now
            (enriched_jobs ++ [job2]) rest

/-- `enrich_and_store_jobs` with fallible enrichment boundary calls. -/
def enrich_and_store_jobsWith (companyLookup : PyVal → Except String Dict)
    (salaryLookup : PyVal → PyVal → Except String Dict)
    (jobs : List Dict) (now : String) : Except String (List Dict) :=
  enrichLoopWith companyLookup salaryLookup [] now [] jobs

/-- The identity triple used by deduplication: (title, company, link). -/
def identityTriple (d : Dict) : Option PyVal × Option PyVal × Option PyVal :=
  (dictGet d "job_title", dictGet d "company_name", dictGet d "source_link")

/-- A posting carries the three identity keys that `is_duplicate` reads. -/
def hasIdentity (d : Dict) : Bool :=
  (dictGet d "job_title").isSome && (dictGet d "company_name").isSome &&
    (dictGet d "source_link").isSome

/-- From src/main.py lines 91-101: the template written on first run. -/
structure NotificationConfig where
  email : Option String
  slack_webhook : Option String
deriving DecidableEq

/-- Shape of the bootstrap configuration template. -/
structure ConfigTemplate where
  job_keywords : List String
  location : String
  salary_range : String
  currency : String
  schedule : Option String
  notification : NotificationConfig
deriving DecidableEq

/-- The concrete template that `load_config` writes when the config file is
absent (src/main.py lines 91-101). -/
def templateConfig : ConfigTemplate :=
  ⟨["Software Engineer", "Data Scientist"], "Remote", "60000-80000", "USD",
    Option.none, ⟨Option.none, Option.none⟩⟩

/-- Boundary actions that a run of `main` performs, in order. -/
inductive Action where
  | writeConfigTemplate (t : ConfigTemplate)
  | processExit (c : Nat)
  | scraperCall (i : Nat)
  | companyLookupCall
  | salaryLookupCall
  | sinkAppendCall (n : Nat)
deriving DecidableEq

/-- Actions that touch the network or the sink. -/
def isBoundaryCall : Action → Bool
  | Action.scraperCall _ => true
  | Action.companyLookupCall => true
  | Action.salaryLookupCall => true
  | Action.sinkAppendCall _ => true
  | Action.writeConfigTemplate _ => false
  | Action.processExit _ => false

/-- Trace of boundary actions of `run_bot` (src/main.py lines 295-299): one
scraper call per registered scraper, then per aggregated posting the two
enrichment calls, then one sink append with the stored batch size. -/
def run_botTrace (results : List ScraperResult) (now : String) : List Action :=
  (List.range results.length).map Action.scraperCall ++
  (aggregate_jobs results).foldr
    (fun _ acc => Action.companyLookupCall :: Action.salaryLookupCall :: acc) [] ++
  [Action.sinkAppendCall (enrich_and_store_jobs (aggregate_jobs results) now).length]

/-- Trace of boundary actions of `main` (src/main.py lines 88-107 and
301-311): when the config file is absent, `load_config` writes the template
and calls `sys.exit(0)`; otherwise the bot runs and the process then exits
normally with status 0. -/
def mainTrace (configFileExists : Bool) (results : List ScraperResult)
    (now : String) : List Action :=
  if configFileExists then
    run_botTrace results now ++ [Action.processExit 0]
  else
    [Action.writeConfigTemplate templateConfig, Action.processExit 0]

/-- Sample posting, shaped like the records built by the scrapers. -/
def sampleJobA : Dict :=
  [("job_title", PyVal.str "Software Engineer"), ("company_name", PyVal.str "Acme"),
   ("location", PyVal.str "Remote"), ("source_link", PyVal.str "http://a/1"),
   ("source", PyVal.str "LinkedIn")]

/-- Sample posting. -/
def sampleJobB : Dict :=
  [("job_title", PyVal.str "Data Scientist"), ("company_name", PyVal.str "Globex"),
   ("location", PyVal.str "Remote"), ("source_link", PyVal.str "http://b/2"),
   ("source", PyVal.str "JobsDB")]

/-- Sample posting. -/
def sampleJobC : Dict :=
  [("job_title", PyVal.str "Engineer"), ("company_name", PyVal.str "Initech"),
   ("location", PyVal.str "Onsite"), ("source_link", PyVal.str "http://c/3"),
   ("source", PyVal.str "Glassdoor")]

/-- Sample posting. -/
def sampleJobD : Dict :=
  [("job_title", PyVal.str "Analyst"), ("company_name", PyVal.str "Umbrella"),
   ("location", PyVal.str "Hybrid"), ("source_link", PyVal.str "http://d/4"),
   ("source", PyVal.str "Glassdoor")]

/-- Sample posting whose title differs from sampleJobC only in letter case. -/
def sampleJobCLower : Dict :=
  [("job_title", PyVal.str "engineer"), ("company_name", PyVal.str "Initech"),
   ("location", PyVal.str "Onsite"), ("source_link", PyVal.str "http://c/3"),
   ("source", PyVal.str "Glassdoor")]

/- Lookup lemmas for the dict model. -/

/-- Lookup on the empty dict. -/
theorem dictGet_nil (k : String) : dictGet [] k = Option.none := rfl

/-- Lookup steps through a cons cell by comparing the head key. -/
theorem dictGet_cons (p : String × PyVal) (d : Dict) (k : String) :
    dictGet (p :: d) k = if p.1 == k then some p.2 else dictGet d k := by
  by_cases h : (p.1 == k) = true
  · simp [dictGet, List.find?_cons_of_pos, h]
  · simp [dictGet, List.find?_cons_of_neg, h]

/-- Replacing the value at key `k` in place makes `k` map to the new value. -/
theorem dictGet_mapSet_self (k : String) (v : PyVal) (d : Dict) :
    d.any (fun p => p.1 == k) = true →
    dictGet (d.map (fun p => if p.1 == k then (k, v) else p)) k = some v := by
  intro h
  unfold dictGet
  rw [List.find?_map]
  have hpred : ((fun p : String × PyVal => p.1 == k) ∘
        (fun p => if p.1 == k then (k, v) else p)) =
      (fun p : String × PyVal => p.1 == k) := by
    funext p
    by_cases hp : p.1 = k
    · simp [hp]
    · simp [hp]
  rw [hpred]
  rcases hfind : d.find? (fun p => p.1 == k) with _ | a
  · rw [List.find?_eq_none] at hfind
    rw [List.any_eq_true] at h
    obtain ⟨x, hx, hpx⟩ := h
    exact absurd hpx (hfind x hx)
  · have ha : a.1 = k := by
      have h0 := List.find?_some hfind
      simpa using h0
    rw [hfind]
    simp [ha]

/-- Replacing the value at key `k` leaves every other key unchanged. -/
theorem dictGet_mapSet_ne (k : String) (v : PyVal) (q : String) (hq : q ≠ k)
    (d : Dict) :
    dictGet (d.map (fun p => if p.1 == k then (k, v) else p)) q = dictGet d q := by
  unfold dictGet
  rw [List.find?_map]
  have hpred : ((fun p : String × PyVal => p.1 == q) ∘
        (fun p => if p.1 == k then (k, v) else p)) =
      (fun p : String × PyVal => p.1 == q) := by
    funext p
    by_cases hp : p.1 = k
    · simp [hp]
    · simp [hp]
  rw [hpred]
  rcases hfind : d.find? (fun p => p.1 == q) with _ | a
  · rw [hfind]; rfl
  · have ha : a.1 = q := by
      have h0 := List.find?_some hfind
      simpa using h0
    have hak : ¬a.1 = k := by
      rw [ha]; exact hq
    rw [hfind]
    simp [hak]

/-- Appending a fresh pair makes its key map to its value, provided the key
was absent. -/
theorem dictGet_append_single_self (k : String) (v : PyVal) (d : Dict)
    (h : d.any (fun p => p.1 == k) = false) :
    dictGet (d ++ [(k, v)]) k = some v := by
  unfold dictGet
  rw [List.find?_append]
  have hnone : d.find? (fun p => p.1 == k) = Option.none := by
    rw [List.find?_eq_none]
    intro x hx
    rw [List.any_eq_false] at h
    exact h x hx
  rw [hnone]
  simp

/-- Appending a pair with key `k` leaves every other key unchanged. -/
theorem dictGet_append_single_ne (k : String) (v : PyVal) (q : String)
    (hq : q ≠ k) (d : Dict) :
    dictGet (d ++ [(k, v)]) q = dictGet d q := by
  unfold dictGet
  rw [List.find?_append]
  have hone : List.find? (fun p => p.1 == q) [(k, v)] = Option.none := by
    have hkq : ((k : String) == q) = false :=
      beq_eq_false_iff_ne.mpr (fun hkq => hq hkq.symm)
    simp [List.find?, hkq]
  rw [hone, Option.or_none]

/-- After `d[k] = v`, looking up `k` yields `v`. -/
theorem dictGet_dictSet_self (d : Dict) (k : String) (v : PyVal) :
    dictGet (dictSet d k v) k = some v := by
  unfold dictSet
  by_cases h : d.any (fun p => p.1 == k) = true
  · rw [if_pos h]; exact dictGet_mapSet_self k v d h
  · rw [if_neg h]
    exact dictGet_append_single_self k v d (Bool.not_eq_true _ ▸ h)

/-- After `d[k] = v`, looking up any other key is unchanged. -/
theorem dictGet_dictSet_ne (d : Dict) (k : String) (v : PyVal) (q : String)
    (hq : q ≠ k) :
    dictGet (dictSet d k v) q = dictGet d q := by
  unfold dictSet
  by_cases h : d.any (fun p => p.1 == k) = true
  · rw [if_pos h]; exact dictGet_mapSet_ne k v q hq d
  · rw [if_neg h]; exact dictGet_append_single_ne k v q hq d

/-- One enrichment step is the chain of the seven key assignments, in the
order the Python loop body performs them. -/
theorem enrichJob_eq (job : Dict) (now : String) :
    enrichJob job now =
      dictSet (dictSet (dictSet (dictSet (dictSet (dictSet (dictSet job
        "industry" PyVal.none) "company_size" PyVal.none) "year_founded" PyVal.none)
        "notable_info" PyVal.none) "average_salary" PyVal.none) "comparison" PyVal.none)
        "scraped_at" (PyVal.str now) := rfl

/-- Enrichment stamps the timestamp under the `scraped_at` key. -/
theorem dictGet_enrichJob_scraped_at (job : Dict) (now : String) :
    dictGet (enrichJob job now) "scraped_at" = some (PyVal.str now) := by
  rw [enrichJob_eq]
  exact dictGet_dictSet_self _ _ _

/-- Enrichment leaves every key other than the seven written ones unchanged. -/
theorem dictGet_enrichJob_of_ne (job : Dict) (now : String) (q : String)
    (h1 : q ≠ "industry") (h2 : q ≠ "company_size") (h3 : q ≠ "year_founded")
    (h4 : q ≠ "notable_info") (h5 : q ≠ "average_salary") (h6 : q ≠ "comparison")
    (h7 : q ≠ "scraped_at") :
    dictGet (enrichJob job now) q = dictGet job q := by
  rw [enrichJob_eq, dictGet_dictSet_ne _ _ _ _ h7, dictGet_dictSet_ne _ _ _ _ h6,
    dictGet_dictSet_ne _ _ _ _ h5, dictGet_dictSet_ne _ _ _ _ h4,
    dictGet_dictSet_ne _ _ _ _ h3, dictGet_dictSet_ne _ _ _ _ h2,
    dictGet_dictSet_ne _ _ _ _ h1]

/-- After enrichment the `industry` field is the null value of the stub. -/
theorem dictGet_enrichJob_industry (job : Dict) (now : String) :
    dictGet (enrichJob job now) "industry" = some PyVal.none := by
  rw [enrichJob_eq, dictGet_dictSet_ne _ _ _ _ (by decide),
    dictGet_dictSet_ne _ _ _ _ (by decide), dictGet_dictSet_ne _ _ _ _ (by decide),
    dictGet_dictSet_ne _ _ _ _ (by decide), dictGet_dictSet_ne _ _ _ _ (by decide),
    dictGet_dictSet_ne _ _ _ _ (by decide)]
  exact dictGet_dictSet_self _ _ _

/-- After enrichment the `company_size` field is the null value of the stub. -/
theorem dictGet_enrichJob_company_size (job : Dict) (now : String) :
    dictGet (enrichJob job now) "company_size" = some PyVal.none := by
  rw [enrichJob_eq, dictGet_dictSet_ne _ _ _ _ (by decide),
    dictGet_dictSet_ne _ _ _ _ (by decide), dictGet_dictSet_ne _ _ _ _ (by decide),
    dictGet_dictSet_ne _ _ _ _ (by decide), dictGet_dictSet_ne _ _ _ _ (by decide)]
  exact dictGet_dictSet_self _ _ _

/-- After enrichment the `year_founded` field is the null value of the stub. -/
theorem dictGet_enrichJob_year_founded (job : Dict) (now : String) :
    dictGet (enrichJob job now) "year_founded" = some PyVal.none := by
  rw [enrichJob_eq, dictGet_dictSet_ne _ _ _ _ (by decide),
    dictGet_dictSet_ne _ _ _ _ (by decide), dictGet_dictSet_ne _ _ _ _ (by decide),
    dictGet_dictSet_ne _ _ _ _ (by decide)]
  exact dictGet_dictSet_self _ _ _

/-- After enrichment the `notable_info` field is the null value of the stub. -/
theorem dictGet_enrichJob_notable_info (job : Dict) (now : String) :
    dictGet (enrichJob job now) "notable_info" = some PyVal.none := by
  rw [enrichJob_eq, dictGet_dictSet_ne _ _ _ _ (by decide),
    dictGet_dictSet_ne _ _ _ _ (by decide), dictGet_dictSet_ne _ _ _ _ (by decide)]
  exact dictGet_dictSet_self _ _ _

/-- After enrichment the `average_salary` field is the null value of the stub. -/
theorem dictGet_enrichJob_average_salary (job : Dict) (now : String) :
    dictGet (enrichJob job now) "average_salary" = some PyVal.none := by
  rw [enrichJob_eq, dictGet_dictSet_ne _ _ _ _ (by decide),
    dictGet_dictSet_ne _ _ _ _ (by decide)]
  exact dictGet_dictSet_self _ _ _

/-- After enrichment the `comparison` field is the null value of the stub. -/
theorem dictGet_enrichJob_comparison (job : Dict) (now : String) :
    dictGet (enrichJob job now) "comparison" = some PyVal.none := by
  rw [enrichJob_eq, dictGet_dictSet_ne _ _ _ _ (by decide)]
  exact dictGet_dictSet_self _ _ _

/-- Nothing is a duplicate with respect to the empty index. -/
theorem is_duplicate_nil (job : Dict) : is_duplicate job [] = false := rfl

/-- The Python loop is the composition of the deduplication filter and the
per-posting enrichment map, appended to the accumulator. -/
theorem enrichLoop_eq (E : List Dict) (now : String) (jobs : List Dict) :
    ∀ acc : List Dict,
      enrichLoop E now acc jobs =
        acc ++ (deduplicate jobs E).map (fun job => enrichJob job now) := by
  induction jobs with
  | nil => intro acc; simp [enrichLoop, deduplicate]
  | cons job rest ih =>
    intro acc
    by_cases h : is_duplicate job E = true
    · rw [show enrichLoop E now acc (job :: rest) =
          (if is_duplicate job E then enrichLoop E now acc rest
           else enrichLoop E now (acc ++ [enrichJob job now]) rest) from rfl]
      rw [if_pos h, ih acc]
      simp [deduplicate, List.filter_cons, h]
    · rw [show enrichLoop E now acc (job :: rest) =
          (if is_duplicate job E then enrichLoop E now acc rest
           else enrichLoop E now (acc ++ [enrichJob job now]) rest) from rfl]
      rw [if_neg h, ih (acc ++ [enrichJob job now])]
      simp [deduplicate, List.filter_cons, Bool.not_eq_true _ ▸ h]

/-- With the placeholder empty index, `enrich_and_store_jobs` enriches every
input posting in order. -/
theorem enrich_and_store_jobs_eq (jobs : List Dict) (now : String) :
    enrich_and_store_jobs jobs now = jobs.map (fun job => enrichJob job now) := by
  unfold enrich_and_store_jobs
  rw [enrichLoop_eq]
  simp [deduplicate, is_duplicate]

/-- When both boundary calls return normally with the stub records, the
fallible loop returns exactly the batch of the shipped loop. -/
theorem enrichLoopWith_ok (E : List Dict) (now : String) (jobs : List Dict) :
    ∀ acc : List Dict,
      enrichLoopWith (fun c => Except.ok (enrich_company_background c))
        (fun t l => Except.ok (benchmark_salary t l)) E now acc jobs =
        Except.ok (enrichLoop E now acc jobs) := by
  induction jobs with
  | nil => intro acc; rfl
  | cons job rest ih =>
    intro acc
    by_cases h : is_duplicate job E = true
    · simp only [enrichLoopWith, enrichLoop, if_pos h]
      exact ih acc
    · simp only [enrichLoopWith, enrichLoop, if_neg h]
      exact ih (acc ++ [enrichJob job now])

/-- Claim C1: if one of the three registered scrapers raises while the other
two each return 2 postings, `aggregate_jobs` returns exactly the
concatenation of the two successful results (4 postings) and aggregation
completes; in general a failed scraper contributes zero postings and does
not abort the fold, wherever it sits in the registration order. -/
theorem aggregate_jobs_tolerates_scraper_failure (e : String) (a b : List Dict)
    (ha : a.length = 2) (hb : b.length = 2) :
    aggregate_jobs [Except.error e, Except.ok a, Except.ok b] = a ++ b ∧
    aggregate_jobs [Except.ok a, Except.error e, Except.ok b] = a ++ b ∧
    aggregate_jobs [Except.ok a, Except.ok b, Except.error e] = a ++ b ∧
    (aggregate_jobs [Except.error e, Except.ok a, Except.ok b]).length = 4 ∧
    (aggregate_jobs [Except.ok a, Except.error e, Except.ok b]).length = 4 ∧
    (aggregate_jobs [Except.ok a, Except.ok b, Except.error e]).length = 4 ∧
    ∀ r1 r2 : List ScraperResult,
      aggregate_jobs (r1 ++ Except.error e :: r2) = aggregate_jobs (r1 ++ r2) := by
  have h1 : aggregate_jobs [Except.error e, Except.ok a, Except.ok b] = a ++ b := by
    simp [aggregate_jobs]
  have h2 : aggregate_jobs [Except.ok a, Except.error e, Except.ok b] = a ++ b := by
    simp [aggregate_jobs]
  have h3 : aggregate_jobs [Except.ok a, Except.ok b, Except.error e] = a ++ b := by
    simp [aggregate_jobs]
  refine ⟨h1, h2, h3, ?_, ?_, ?_, ?_⟩
  · rw [h1]; simp [List.length_append, ha, hb]
  · rw [h2]; simp [List.length_append, ha, hb]
  · rw [h3]; simp [List.length_append, ha, hb]
  · intro r1 r2
    simp [aggregate_jobs, List.foldl_append]

/-- Claim C1 witness: a concrete failing scraper beside two successful
scrapers with 2 postings each yields 4 aggregated postings. -/
theorem aggregate_jobs_tolerates_scraper_failure_witness :
    ([sampleJobA, sampleJobB] : List Dict).length = 2 ∧
    ([sampleJobC, sampleJobD] : List Dict).length = 2 ∧
    (aggregate_jobs [Except.error "site unreachable",
      Except.ok [sampleJobA, sampleJobB],
      Except.ok [sampleJobC, sampleJobD]]).length = 4 :=
  ⟨rfl, rfl,
    (aggregate_jobs_tolerates_scraper_failure "site unreachable"
      [sampleJobA, sampleJobB] [sampleJobC, sampleJobD] rfl rfl).2.2.2.1⟩

/-- Claim C2: a posting P survives deduplication (`is_duplicate` returns
false) iff its (title, company, link) triple is absent from the existing
index S, compared by exact string equality with no normalization. -/
theorem is_duplicate_false_iff_triple_absent (P : Dict) (S : List Dict)
    (hP : hasIdentity P = true) (hS : ∀ e ∈ S, hasIdentity e = true) :
    is_duplicate P S = false ↔ ∀ e ∈ S, identityTriple P ≠ identityTriple e := by
  unfold is_duplicate identityTriple
  rw [List.any_eq_false]
  constructor
  · intro h e he heq
    have h2 := h e he
    simp only [Bool.and_eq_true, beq_iff_eq] at h2
    rw [Prod.mk.injEq, Prod.mk.injEq] at heq
    tauto
  · intro h e he hpred
    simp only [Bool.and_eq_true, beq_iff_eq] at hpred
    refine h e he ?_
    rw [Prod.mk.injEq, Prod.mk.injEq]
    tauto

/-- Claim C2 witness: a posting whose title differs from an indexed posting
only in letter case survives, since equality is exact. -/
theorem is_duplicate_false_iff_triple_absent_witness :
    hasIdentity sampleJobC = true ∧
    (∀ e ∈ [sampleJobCLower], hasIdentity e = true) ∧
    (is_duplicate sampleJobC [sampleJobCLower] = false ↔
      ∀ e ∈ [sampleJobCLower], identityTriple sampleJobC ≠ identityTriple e) :=
  ⟨by decide, by decide,
    is_duplicate_false_iff_triple_absent sampleJobC [sampleJobCLower]
      (by decide) (by decide)⟩

/-- Claim C3: the deduplication filter is idempotent; filtering its own
output again against the same index removes nothing further. -/
theorem deduplicate_idempotent (jobs E : List Dict) :
    deduplicate (deduplicate jobs E) E = deduplicate jobs E := by
  unfold deduplicate
  rw [List.filter_filter]
  simp

/-- Claim C4: enrichment is total; the output batch of
`enrich_and_store_jobs` has the same cardinality as the input sequence, even
though both lookups only produce null data. -/
theorem enrich_and_store_jobs_length (jobs : List Dict) (now : String) :
    (enrich_and_store_jobs jobs now).length = jobs.length := by
  rw [enrich_and_store_jobs_eq]
  exact List.length_map jobs _

/-- Claim C5 counterexample: the orchestration of `enrich_and_store_jobs`
contains no handler around the enrichment calls, so a raised company-lookup
error propagates at the first posting: the salary lookup never runs, the
second posting is never enriched, and the whole run aborts with the error
instead of completing. -/
theorem enrichment_failure_aborts_counterexample :
    enrich_and_store_jobsWith (fun _ => Except.error "company lookup failed")
      (fun t l => Except.ok (benchmark_salary t l))
      [sampleJobA, sampleJobB] "2025-07-02T10:27:45"
      = Except.error "company lookup failed" := rfl

/-- Claim C5 (amended): the enrichment calls shipped in the code are total
stubs, so with them no error is ever raised and the run always completes
with the full batch; the loop itself would propagate any raised error. -/
theorem enrich_and_store_jobs_with_stub_lookups_never_aborts
    (jobs : List Dict) (now : String) :
    enrich_and_store_jobsWith (fun c => Except.ok (enrich_company_background c))
      (fun t l => Except.ok (benchmark_salary t l)) jobs now
      = Except.ok (enrich_and_store_jobs jobs now) := by
  unfold enrich_and_store_jobsWith enrich_and_store_jobs
  exact enrichLoopWith_ok [] now jobs []

/-- Claim C6: every posting in the stored batch carries the scrape timestamp
under the `scraped_at` key, stamped after the two enrichment merges. -/
theorem scraped_at_stamped (jobs : List Dict) (now : String) (job : Dict)
    (h : job ∈ enrich_and_store_jobs jobs now) :
    dictGet job "scraped_at" = some (PyVal.str now) := by
  rw [enrich_and_store_jobs_eq] at h
  obtain ⟨j, hj, rfl⟩ := List.mem_map.mp h
  exact dictGet_enrichJob_scraped_at j now

/-- Claim C6 witness: a concrete posting in a stored batch is stamped. -/
theorem scraped_at_stamped_witness :
    enrichJob sampleJobA "2025-07-02T10:27:45" ∈
      enrich_and_store_jobs [sampleJobA] "2025-07-02T10:27:45" ∧
    dictGet (enrichJob sampleJobA "2025-07-02T10:27:45") "scraped_at"
      = some (PyVal.str "2025-07-02T10:27:45") :=
  ⟨by decide,
    scraped_at_stamped [sampleJobA] "2025-07-02T10:27:45"
      (enrichJob sampleJobA "2025-07-02T10:27:45") (by decide)⟩

/-- Claim C7: when the configuration file is absent, the run writes the
documented template (keys job_keywords, location, salary_range, currency,
schedule, notification) and exits with status 0, performing no scraper,
enrichment or sink call. -/
theorem load_config_missing_file_first_run (results : List ScraperResult)
    (now : String) :
    mainTrace false results now =
      [Action.writeConfigTemplate templateConfig, Action.processExit 0] ∧
    templateConfig.job_keywords = ["Software Engineer", "Data Scientist"] ∧
    templateConfig.location = "Remote" ∧
    templateConfig.salary_range = "60000-80000" ∧
    templateConfig.currency = "USD" ∧
    templateConfig.schedule = Option.none ∧
    (templateConfig.notification).email = Option.none ∧
    (templateConfig.notification).slack_webhook = Option.none ∧
    ((mainTrace false results now).all (fun a => !isBoundaryCall a)) = true :=
  ⟨rfl, rfl, rfl, rfl, rfl, rfl, rfl, rfl, rfl⟩

/-- Claim C8: the enrichment merges never change the identity fields
job_title, company_name, source_link and source of a posting. -/
theorem enrichment_preserves_identity_fields (job : Dict) (now : String)
    (q : String)
    (hq : q = "job_title" ∨ q = "company_name" ∨ q = "source_link" ∨ q = "source") :
    dictGet (enrichJob job now) q = dictGet job q := by
  rcases hq with rfl | rfl | rfl | rfl <;>
    exact dictGet_enrichJob_of_ne _ _ _ (by decide) (by decide) (by decide)
      (by decide) (by decide) (by decide) (by decide)

/-- Claim C8 witness: the title of a concrete posting is unchanged by
enrichment. -/
theorem enrichment_preserves_identity_fields_witness :
    (("job_title" : String) = "job_title" ∨ ("job_title" : String) = "company_name" ∨
      ("job_title" : String) = "source_link" ∨ ("job_title" : String) = "source") ∧
    dictGet (enrichJob sampleJobA "2025-01-01T00:00:00") "job_title"
      = dictGet sampleJobA "job_title" :=
  ⟨Or.inl rfl,
    enrichment_preserves_identity_fields sampleJobA "2025-01-01T00:00:00"
      "job_title" (Or.inl rfl)⟩

/-- Claim C9: the two enrichment stubs return records whose fields are all
None for every input, so every posting leaving the pipeline has null
enrichment fields. -/
theorem enrichment_stubs_return_null_fields (c t l : PyVal) (jobs : List Dict)
    (now : String) (job : Dict) (h : job ∈ enrich_and_store_jobs jobs now) :
    enrich_company_background c =
      [("industry", PyVal.none), ("company_size", PyVal.none),
       ("year_founded", PyVal.none), ("notable_info", PyVal.none)] ∧
    benchmark_salary t l =
      [("average_salary", PyVal.none), ("comparison", PyVal.none)] ∧
    dictGet job "industry" = some PyVal.none ∧
    dictGet job "company_size" = some PyVal.none ∧
    dictGet job "year_founded" = some PyVal.none ∧
    dictGet job "notable_info" = some PyVal.none ∧
    dictGet job "average_salary" = some PyVal.none ∧
    dictGet job "comparison" = some PyVal.none := by
  rw [enrich_and_store_jobs_eq] at h
  obtain ⟨j, hj, rfl⟩ := List.mem_map.mp h
  exact ⟨rfl, rfl, dictGet_enrichJob_industry j now,
    dictGet_enrichJob_company_size j now, dictGet_enrichJob_year_founded j now,
    dictGet_enrichJob_notable_info j now, dictGet_enrichJob_average_salary j now,
    dictGet_enrichJob_comparison j now⟩

/-- Claim C9 witness: a concrete stored posting has a null industry field. -/
theorem enrichment_stubs_return_null_fields_witness :
    enrichJob sampleJobB "2025-03-04T05:06:07" ∈
      enrich_and_store_jobs [sampleJobB] "2025-03-04T05:06:07" ∧
    dictGet (enrichJob sampleJobB "2025-03-04T05:06:07") "industry"
      = some PyVal.none :=
  ⟨by decide,
    (enrichment_stubs_return_null_fields (PyVal.str "Globex")
      (PyVal.str "Data Scientist") (PyVal.str "Remote") [sampleJobB]
      "2025-03-04T05:06:07" (enrichJob sampleJobB "2025-03-04T05:06:07")
      (by decide)).2.2.1⟩

/-- Claim C10: inside `enrich_and_store_jobs` the existing index is the
placeholder empty list, so nothing is ever filtered as a duplicate: the
stored batch is exactly the enrichment of every aggregated posting, and the
sink receives as many postings as the aggregator produced. -/
theorem empty_existing_index_no_filtering (results : List ScraperResult)
    (now : String) (j : Dict) :
    is_duplicate j ([] : List Dict) = false ∧
    enrich_and_store_jobs (aggregate_jobs results) now
      = (aggregate_jobs results).map (fun job => enrichJob job now) ∧
    (enrich_and_store_jobs (aggregate_jobs results) now).length
      = (aggregate_jobs results).length ∧
    Action.sinkAppendCall ((aggregate_jobs results).length) ∈
      run_botTrace results now := by
  have hlen : (enrich_and_store_jobs (aggregate_jobs results) now).length
      = (aggregate_jobs results).length := by
    rw [enrich_and_store_jobs_eq]; exact List.length_map _ _
  refine ⟨rfl, enrich_and_store_jobs_eq _ _, hlen, ?_⟩
  unfold run_botTrace
  rw [hlen]
  simp

end JobAggregator
